import Mathlib

/-!
Shallow embedding of the ProofCheck repository scoring engine.

Sources embedded:
- `src/ingestion.js` (compileReport, scoreToGrade, generateSummary,
  identifyStrengths, identifyImprovements)
- `src/router.js` (runAnalyzers, ANALYZERS, SUPPORTED_LANGUAGES)
- `src/languageDetector.js` (detectLanguages, EXTENSION_MAP)
- `src/analyzers/cppAnalyzer.js` (categorizeComplexity, complexity average)
- `src/analyzers/javascriptAnalyzer.js` (categorizeComplexity)
- `src/analyzers/pythonAnalyzer.js` (radon bucket categorization, analyzeStyle)
- `src/githubFetcher.js` (filterFiles, the zero-analyzable-files check)

JavaScript numbers are modelled as integers (ℤ/ℕ) and exact rationals (ℚ);
all arithmetic appearing in the scoring paths stays far from any
floating-point rounding boundary, so the rational model agrees with the
double-precision evaluation on the relevant inputs.
-/

/-- JavaScript `Math.round`: round half toward positive infinity. -/
def jsRound (q : ℚ) : ℤ := ⌊q + 1 / 2⌋

/-! ## Grades (`src/ingestion.js`, scoreToGrade) -/

/-- The eleven-value grade enum of the report. -/
inductive Grade
  | A_plus | A | A_minus
  | B_plus | B | B_minus
  | C_plus | C | C_minus
  | D | F
deriving DecidableEq

/-- `scoreToGrade` from `src/ingestion.js` lines 70-82: the fixed ordered
threshold table with inclusive lower bounds. -/
def scoreToGrade (score : ℤ) : Grade :=
  if score ≥ 90 then .A_plus
  else if score ≥ 85 then .A
  else if score ≥ 80 then .A_minus
  else if score ≥ 75 then .B_plus
  else if score ≥ 70 then .B
  else if score ≥ 65 then .B_minus
  else if score ≥ 60 then .C_plus
  else if score ≥ 55 then .C
  else if score ≥ 50 then .C_minus
  else if score ≥ 40 then .D
  else .F

/-- Rank of a grade, F = 0 up to A+ = 10; used to state monotonicity. -/
def gradeRank : Grade → Nat
  | .F => 0 | .D => 1
  | .C_minus => 2 | .C => 3 | .C_plus => 4
  | .B_minus => 5 | .B => 6 | .B_plus => 7
  | .A_minus => 8 | .A => 9 | .A_plus => 10

/-! ## Complexity distributions -/

/-- The four mutually exclusive complexity buckets. -/
structure Distribution where
  low : Nat
  medium : Nat
  high : Nat
  veryHigh : Nat
deriving DecidableEq

/-- Bucket counts plus the running maximum, as kept in
`result.complexity` by the C++ and JavaScript analyzers. -/
structure ComplexityAgg where
  distribution : Distribution
  max : Nat
deriving DecidableEq

namespace CppAnalyzer

/-- `categorizeComplexity` from `src/analyzers/cppAnalyzer.js` lines 273-280. -/
def categorizeComplexity (complexity : Nat) (agg : ComplexityAgg) : ComplexityAgg :=
  let d := agg.distribution
  let d :=
    if complexity ≤ 5 then { d with low := d.low + 1 }
    else if complexity ≤ 10 then { d with medium := d.medium + 1 }
    else if complexity ≤ 20 then { d with high := d.high + 1 }
    else { d with veryHigh := d.veryHigh + 1 }
  { distribution := d, max := max agg.max complexity }

/-- The per-file scan calls `categorizeComplexity` once for each function
that closes; this folds a list of per-function complexities the way the
scanner does, starting from the freshly initialised result. -/
def recordFunctionComplexities (cs : List Nat) : ComplexityAgg :=
  cs.foldl (fun agg c => categorizeComplexity c agg) ⟨⟨0, 0, 0, 0⟩, 0⟩

/-- `analyzeCpp` lines 85-93: when at least one function was counted, the
reported average is `Math.round` of the bucket counts weighted by the fixed
representatives 3/7/15/25 divided by the function count; otherwise the
initial 0 stands. -/
def finalizeAverage (d : Distribution) (functions : Nat) : ℤ :=
  if functions > 0 then
    jsRound (((d.low * 3 + d.medium * 7 + d.high * 15 + d.veryHigh * 25 : ℕ) : ℚ) / (functions : ℚ))
  else 0

end CppAnalyzer

namespace JsAnalyzer

/-- `categorizeComplexity` from `src/analyzers/javascriptAnalyzer.js`
lines 246-253 (textually identical to the C++ one). -/
def categorizeComplexity (complexity : Nat) (agg : ComplexityAgg) : ComplexityAgg :=
  let d := agg.distribution
  let d :=
    if complexity ≤ 5 then { d with low := d.low + 1 }
    else if complexity ≤ 10 then { d with medium := d.medium + 1 }
    else if complexity ≤ 20 then { d with high := d.high + 1 }
    else { d with veryHigh := d.veryHigh + 1 }
  { distribution := d, max := max agg.max complexity }

end JsAnalyzer

namespace PyAnalyzer

/-- The bucket categorization of one radon-reported function complexity,
`src/analyzers/pythonAnalyzer.js` lines 88-92. -/
def categorizeComplexity (complexity : Nat) (d : Distribution) : Distribution :=
  if complexity ≤ 5 then { d with low := d.low + 1 }
  else if complexity ≤ 10 then { d with medium := d.medium + 1 }
  else if complexity ≤ 20 then { d with high := d.high + 1 }
  else { d with veryHigh := d.veryHigh + 1 }

/-- One pylint diagnostic as parsed from its JSON output; only the `type`
field participates in the style score. -/
structure PylintIssue where
  type : String
  message : String
deriving DecidableEq

/-- What the pylint subprocess left on stdout, after the `.trim()` checks
of `analyzeStyle`: empty (missing, whitespace, or exactly the empty JSON
array text), a parsable JSON array of diagnostics, or unparsable text. -/
inductive PylintStdout
  | empty
  | issuesJson (issues : List PylintIssue)
  | unparsable
deriving DecidableEq

/-- Outcome of the `execAsync` call running pylint: resolved (exit zero,
thanks to `--exit-zero`) or rejected (tool unavailable, crashed, timed
out), in each case with whatever ended up on stdout.  A rejection with no
captured stdout carries `.empty` because the `.catch` handler substitutes
the empty-array text for a missing `e.stdout`. -/
inductive PylintExec
  | resolved (out : PylintStdout)
  | rejected (out : PylintStdout)
deriving DecidableEq

/-- The style score assigned by `analyzeStyle`
(`src/analyzers/pythonAnalyzer.js` lines 119-169).  The `.catch` on the
`execAsync` call merges the rejected case into the resolved one before any
branching happens, so both are inspected through the same stdout checks. -/
def analyzeStyleScore (r : PylintExec) : ℤ :=
  let stdout :=
    match r with
    | .resolved out => out
    | .rejected out => out
  match stdout with
  | .issuesJson issues =>
      let errors := (issues.filter (fun i => i.type == "error")).length
      let warnings := (issues.filter (fun i => i.type == "warning")).length
      let conventions := (issues.filter (fun i => i.type == "convention")).length
      let refactors := (issues.filter (fun i => i.type == "refactor")).length
      let styleScore : ℚ :=
        100 - (errors : ℚ) * 5 - (warnings : ℚ) * 2
          - (conventions : ℚ) * (1 / 2) - (refactors : ℚ) * 1
      max 0 (min 100 (jsRound styleScore))
  | .unparsable => 70
  | .empty => 85

end PyAnalyzer

/-- The exact per-function mean the C++ analyzer does NOT compute; stated
from the spec only to contrast with `CppAnalyzer.finalizeAverage`. -/
def trueMeanComplexity (cs : List Nat) : ℚ :=
  ((cs.map (fun c => (c : ℚ))).sum) / (cs.length : ℚ)

/-! ## Language detector (`src/languageDetector.js`) -/

namespace Detector

/-- Per-language accumulator built during the file walk. -/
structure RawStat where
  files : Nat
  lines : Nat
  bytes : Nat
deriving DecidableEq

/-- Outcome of reading one walked file: `readFile`/`stat` succeeded with a
line count (`content.split` on the newline, hence at least 1 for readable
files) and a byte size, or the read threw and only the file count grows. -/
inductive FileRead
  | ok (lines : Nat) (bytes : Nat)
  | failed
deriving DecidableEq

/-- `EXTENSION_MAP` from `src/languageDetector.js`, in declaration order.
Keys are matched against the already-lowercased extension the walk
callback computes (`path.extname(filePath).toLowerCase()`). -/
def EXTENSION_MAP : List (String × String) :=
  [(".py", "Python"), (".pyw", "Python"),
   (".js", "JavaScript"), (".jsx", "JavaScript"),
   (".ts", "TypeScript"), (".tsx", "TypeScript"),
   (".cpp", "C++"), (".cc", "C++"), (".cxx", "C++"),
   (".c", "C"),
   (".h", "C/C++ Header"), (".hpp", "C++ Header"),
   (".java", "Java"), (".go", "Go"), (".rs", "Rust"),
   (".rb", "Ruby"), (".php", "PHP"), (".cs", "C#"),
   (".swift", "Swift"), (".kt", "Kotlin"), (".scala", "Scala"),
   (".r", "R"), (".R", "R"),
   (".m", "MATLAB/Objective-C"), (".sql", "SQL"),
   (".sh", "Shell"), (".bash", "Shell"), (".zsh", "Shell"),
   (".ps1", "PowerShell"),
   (".html", "HTML"), (".css", "CSS"), (".scss", "SCSS"),
   (".sass", "Sass"), (".less", "Less"),
   (".json", "JSON"), (".xml", "XML"),
   (".yaml", "YAML"), (".yml", "YAML"),
   (".md", "Markdown"), (".vue", "Vue"), (".svelte", "Svelte")]

/-- Fold one file-read outcome into a language's accumulator. -/
def bumpStat (r : FileRead) (s : RawStat) : RawStat :=
  match r with
  | .ok lines bytes => { files := s.files + 1, lines := s.lines + lines, bytes := s.bytes + bytes }
  | .failed => { s with files := s.files + 1 }

/-- Record one walked file under its language.  A first encounter appends
the language at the end, mirroring JavaScript object key insertion order
(`stats[language] = { files: 0, ... }` followed by the increments). -/
def addFile (stats : List (String × RawStat)) (lang : String) (r : FileRead) : List (String × RawStat) :=
  if stats.any (fun e => e.1 == lang) then
    stats.map (fun e => if e.1 == lang then (e.1, bumpStat r e.2) else e)
  else
    stats ++ [(lang, bumpStat r ⟨0, 0, 0⟩)]

/-- The stats object accumulated by `detectLanguages`' walk callback; one
event per visited file, in traversal order, carrying the lowercased
extension and the read outcome.  Files whose extension is not in
`EXTENSION_MAP` are ignored. -/
def accumulateStats (events : List (String × FileRead)) : List (String × RawStat) :=
  events.foldl (fun stats ev =>
    match EXTENSION_MAP.lookup ev.1 with
    | some lang => addFile stats lang ev.2
    | none => stats) []

/-- The greatest `lines` value over a stats list (0 when empty); matches
the running `maxLines` reached at the end of the primary-selection loop. -/
def maxLinesOf : List (String × RawStat) → Nat
  | [] => 0
  | e :: l => max e.2.lines (maxLinesOf l)

/-- One step of the primary-language selection loop
(`if (data.lines > maxLines)` in `detectLanguages`). -/
def primaryStep (acc : Option String × Nat) (e : String × RawStat) : Option String × Nat :=
  if e.2.lines > acc.2 then (some e.1, e.2.lines) else acc

end Detector

/-- One entry of `languageStats.breakdown`: a `RawStat` plus the rounded
percentage of total lines. -/
structure LangStat where
  files : Nat
  lines : Nat
  bytes : Nat
  percentage : ℤ
deriving DecidableEq

/-- The value returned by `detectLanguages`. -/
structure LanguageStats where
  primary : Option String
  breakdown : List (String × LangStat)
  totalFiles : Nat
  totalLines : Nat
deriving DecidableEq

namespace Detector

/-- Insert one breakdown entry into a list already sorted by descending
`lines`, after every entry with at least as many lines. -/
def sortInsert (a : String × LangStat) : List (String × LangStat) → List (String × LangStat)
  | [] => [a]
  | b :: l => if a.2.lines > b.2.lines then a :: b :: l else b :: sortInsert a l

/-- The stable descending sort `Array.prototype.sort` performs with the
comparator on line counts (`(a, b) => b.lines - a.lines`); stated as an
insertion sort, which computes the same list for this total comparator. -/
def sortByLinesDesc (l : List (String × LangStat)) : List (String × LangStat) :=
  l.foldl (fun acc a => sortInsert a acc) []

/-- `detectLanguages` from `src/languageDetector.js` lines 514-577, from
the accumulated walk events onward: totals, rounded percentages, the
primary-language selection loop, and the descending sort of the
breakdown. -/
def detectLanguages (events : List (String × FileRead)) : LanguageStats :=
  let stats := accumulateStats events
  let totalLines : ℕ := (stats.map (fun e => e.2.lines)).sum
  let totalFiles : ℕ := (stats.map (fun e => e.2.files)).sum
  let breakdown := stats.map (fun e =>
    (e.1, ({ files := e.2.files, lines := e.2.lines, bytes := e.2.bytes,
             percentage :=
               if totalLines > 0 then jsRound (((e.2.lines : ℚ) / (totalLines : ℚ)) * 100) else 0 } : LangStat)))
  { primary := (stats.foldl primaryStep (none, 0)).1
    breakdown := sortByLinesDesc breakdown
    totalFiles := totalFiles
    totalLines := totalLines }

end Detector

/-! ## Router (`src/router.js`) -/

namespace Router

/-- The three analyzer implementations languages can route to. -/
inductive AnalyzerKind
  | python | javascript | cpp
deriving DecidableEq

/-- The `ANALYZERS` map of `src/router.js` lines 6-14.  The two header
labels map to `null` there and every unlisted label is `undefined`; both
are falsy at the `if (analyzer)` check, so both are `none` here. -/
def ANALYZERS (lang : String) : Option AnalyzerKind :=
  if lang == "Python" then some .python
  else if lang == "JavaScript" then some .javascript
  else if lang == "TypeScript" then some .javascript
  else if lang == "C++" then some .cpp
  else if lang == "C" then some .cpp
  else none

/-- `SUPPORTED_LANGUAGES` from `src/router.js` line 17. -/
def SUPPORTED_LANGUAGES : List String :=
  ["Python", "JavaScript", "TypeScript", "C++", "C"]

/-- The per-language analysis result as the router and aggregator consume
it: the score, the derived complexity average, and the number of
collected issues (the only fields read downstream of the analyzers). -/
structure AnalysisView where
  score : ℤ
  complexityAverage : ℚ
  issuesCount : Nat
deriving DecidableEq

/-- One value of `results.byLanguage`: either a full analysis result or
the degraded `{ score: 50, error: message }` object recorded when an
analyzer threw. -/
inductive ByLangEntry
  | analysis (a : AnalysisView)
  | failed (score : ℤ) (error : String)
deriving DecidableEq

/-- The `results` object `runAnalyzers` returns. -/
structure CodeAnalysis where
  byLanguage : List (String × ByLangEntry)
  overallScore : ℤ
  analyzedLanguages : List String
  message : Option String
deriving DecidableEq

/-- The selection predicate of `runAnalyzers`:
`SUPPORTED_LANGUAGES.has(lang) && data.percentage >= 5`. -/
def qualifies (e : String × LangStat) : Bool :=
  SUPPORTED_LANGUAGES.contains e.1 && decide (e.2.percentage ≥ 5)

/-- Loop state of `runAnalyzers`: the mutable `results.byLanguage`,
`results.analyzedLanguages`, `totalWeight` and `weightedScore`. -/
structure RouterAcc where
  byLanguage : List (String × ByLangEntry)
  analyzedLanguages : List String
  totalWeight : ℚ
  weightedScore : ℚ

/-- One iteration of the `for (const [lang, data] of languagesToAnalyze)`
loop, parameterised by the outcome `run` of awaiting each analyzer on the
repository path (an exception becomes `Except.error` with its message). -/
def routerStep (run : AnalyzerKind → Except String AnalysisView)
    (acc : RouterAcc) (e : String × LangStat) : RouterAcc :=
  match ANALYZERS e.1 with
  | none => acc
  | some k =>
    match run k with
    | .ok analysis =>
        { byLanguage := acc.byLanguage ++ [(e.1, .analysis analysis)]
          analyzedLanguages := acc.analyzedLanguages ++ [e.1]
          totalWeight := acc.totalWeight + (e.2.percentage : ℚ)
          weightedScore := acc.weightedScore + (analysis.score : ℚ) * (e.2.percentage : ℚ) }
    | .error msg =>
        { acc with byLanguage := acc.byLanguage ++ [(e.1, .failed 50 msg)] }

/-- `runAnalyzers` from `src/router.js` lines 19-71: filter the breakdown
to supported languages at or above 5 percent, keep the first three, run
each analyzer, and round the percentage-weighted mean of the successful
scores (50 when nothing qualifies or no weight accumulated). -/
def runAnalyzers (breakdown : List (String × LangStat))
    (run : AnalyzerKind → Except String AnalysisView) : CodeAnalysis :=
  let languagesToAnalyze := (breakdown.filter qualifies).take 3
  if languagesToAnalyze.isEmpty then
    { byLanguage := []
      overallScore := 50
      analyzedLanguages := []
      message := some "No supported languages found with significant code" }
  else
    let acc := languagesToAnalyze.foldl (routerStep run) ⟨[], [], 0, 0⟩
    { byLanguage := acc.byLanguage
      overallScore :=
        if acc.totalWeight > 0 then jsRound (acc.weightedScore / acc.totalWeight) else 50
      analyzedLanguages := acc.analyzedLanguages
      message := none }

/-- The filtered-and-truncated language list the router iterates. -/
def routerSelected (breakdown : List (String × LangStat)) : List (String × LangStat) :=
  (breakdown.filter qualifies).take 3

/-- Whether a language routes to an analyzer whose run succeeded. -/
def langSucceeds (run : AnalyzerKind → Except String AnalysisView) (lang : String) : Bool :=
  match ANALYZERS lang with
  | some k => match run k with | .ok _ => true | .error _ => false
  | none => false

/-- Score of a language's successful analyzer run (0 otherwise; only used
on successes). -/
def runScore (run : AnalyzerKind → Except String AnalysisView) (lang : String) : ℚ :=
  match ANALYZERS lang with
  | some k => match run k with | .ok a => (a.score : ℚ) | .error _ => 0
  | none => 0

/-- The sublist of selected languages whose analyzer run succeeded. -/
def routerSuccesses (run : AnalyzerKind → Except String AnalysisView)
    (l : List (String × LangStat)) : List (String × LangStat) :=
  l.filter (fun e => langSucceeds run e.1)

/-- Sum of the percentages of a language list (the final `totalWeight`). -/
def sumPct (l : List (String × LangStat)) : ℚ :=
  (l.map (fun e => (e.2.percentage : ℚ))).sum

/-- Sum of score-times-percentage (the final `weightedScore`). -/
def sumWeighted (run : AnalyzerKind → Except String AnalysisView)
    (l : List (String × LangStat)) : ℚ :=
  (l.map (fun e => runScore run e.1 * (e.2.percentage : ℚ))).sum

/-- The `byLanguage` record written for one language that reached its
analyzer call. -/
def routerEntry (run : AnalyzerKind → Except String AnalysisView) (k : AnalyzerKind) : ByLangEntry :=
  match run k with
  | .ok a => .analysis a
  | .error msg => .failed 50 msg

/-- All `byLanguage` records, in loop order. -/
def routerEntries (run : AnalyzerKind → Except String AnalysisView)
    (l : List (String × LangStat)) : List (String × ByLangEntry) :=
  l.filterMap (fun e => (ANALYZERS e.1).map (fun k => (e.1, routerEntry run k)))

end Router

/-! ## Aggregator (`src/ingestion.js`) -/

/-- The project-level metrics produced by `analyzeProject`
(`src/projectAnalyzer.js`); the aggregator only reads these fields. -/
structure ProjectMetrics where
  hasReadme : Bool
  readmeQuality : ℤ
  hasLicense : Bool
  hasTests : Bool
  hasCI : Bool
  hasDocker : Bool
  hasPackageManager : Bool
  hasDocs : Bool
  structureScore : ℤ
  score : ℤ
deriving DecidableEq

/-- The final report.  `analyzedAt` (a wall-clock timestamp excluded from
every determinism guarantee) is the only field of the source object not
modelled. -/
structure Report where
  repoUrl : String
  overallScore : ℤ
  grade : Grade
  summary : String
  languages : LanguageStats
  projectMetrics : ProjectMetrics
  codeAnalysis : Router.CodeAnalysis
  strengths : List String
  improvements : List String

/-- `analysis.score` as read off a `byLanguage` record. -/
def entryScore : Router.ByLangEntry → ℤ
  | .analysis a => a.score
  | .failed s _ => s

/-- `analysis.complexity?.average`: absent on a degraded record. -/
def entryComplexityAverage : Router.ByLangEntry → Option ℚ
  | .analysis a => some a.complexityAverage
  | .failed _ _ => none

/-- `analysis.issues?.length`: absent on a degraded record. -/
def entryIssuesCount : Router.ByLangEntry → Option Nat
  | .analysis a => some a.issuesCount
  | .failed _ _ => none

/-- `generateSummary` from `src/ingestion.js` lines 84-109. -/
def generateSummary (score : ℤ) (projectMetrics : ProjectMetrics)
    (codeAnalysis : Router.CodeAnalysis) : String :=
  let summary :=
    if score ≥ 80 then "This repository demonstrates strong software engineering practices. "
    else if score ≥ 60 then "This repository shows competent development skills with room for improvement. "
    else if score ≥ 40 then "This repository meets basic standards but needs significant improvements. "
    else "This repository requires substantial work to meet professional standards. "
  let summary :=
    if projectMetrics.hasTests then summary ++ "Test coverage is present. " else summary
  let summary :=
    if projectMetrics.hasReadme && decide (projectMetrics.readmeQuality ≥ 70) then
      summary ++ "Documentation is well-maintained. "
    else summary
  let summary :=
    if codeAnalysis.overallScore ≥ 75 then summary ++ "Code quality is above average." else summary
  summary.trim

/-- `identifyStrengths` from `src/ingestion.js` lines 111-129. -/
def identifyStrengths (projectMetrics : ProjectMetrics)
    (codeAnalysis : Router.CodeAnalysis) : List String :=
  let strengths :=
    (if projectMetrics.readmeQuality ≥ 80 then [("Excellent documentation")] else []) ++
    (if projectMetrics.hasTests then [("Includes test suite")] else []) ++
    (if projectMetrics.hasCI then [("CI/CD configured")] else []) ++
    (if projectMetrics.hasLicense then [("Properly licensed")] else []) ++
    (if projectMetrics.structureScore ≥ 80 then [("Well-organized file structure")] else []) ++
    (if codeAnalysis.overallScore ≥ 80 then [("High code quality")] else []) ++
    codeAnalysis.byLanguage.filterMap (fun e =>
      if entryScore e.2 ≥ 85 then some ("Strong " ++ e.1 ++ " implementation") else none)
  if strengths.isEmpty then [("Repository analyzed successfully")] else strengths

/-- `identifyImprovements` from `src/ingestion.js` lines 131-153. -/
def identifyImprovements (projectMetrics : ProjectMetrics)
    (codeAnalysis : Router.CodeAnalysis) : List String :=
  let improvements :=
    (if !projectMetrics.hasReadme then [("Add a README file")]
     else if projectMetrics.readmeQuality < 50 then [("Improve README documentation")]
     else []) ++
    (if !projectMetrics.hasTests then [("Add unit tests")] else []) ++
    (if !projectMetrics.hasLicense then [("Add a license file")] else []) ++
    (if !projectMetrics.hasCI then [("Set up CI/CD pipeline")] else []) ++
    (if projectMetrics.structureScore < 50 then [("Improve project organization")] else []) ++
    (codeAnalysis.byLanguage.map (fun e =>
      (if (match entryComplexityAverage e.2 with
           | some avg => decide (avg > 15)
           | none => false) then [("Reduce complexity in " ++ e.1 ++ " code")] else []) ++
      (if (match entryIssuesCount e.2 with
           | some n => decide (n > 5)
           | none => false) then [("Address code quality issues in " ++ e.1)] else []))).flatten
  improvements.take 5

/-- `compileReport` from `src/ingestion.js` lines 48-68: the 40/60
weighted overall score, its grade, and the narrative fields. -/
def compileReport (repoUrl : String) (languageStats : LanguageStats)
    (projectMetrics : ProjectMetrics) (codeAnalysis : Router.CodeAnalysis) : Report :=
  let projectScore := projectMetrics.score
  let codeScore := codeAnalysis.overallScore
  let overallScore := jsRound ((projectScore : ℚ) * 0.4 + (codeScore : ℚ) * 0.6)
  { repoUrl := repoUrl
    overallScore := overallScore
    grade := scoreToGrade overallScore
    summary := generateSummary overallScore projectMetrics codeAnalysis
    languages := languageStats
    projectMetrics := projectMetrics
    codeAnalysis := codeAnalysis
    strengths := identifyStrengths projectMetrics codeAnalysis
    improvements := identifyImprovements projectMetrics codeAnalysis }

/-! ## GitHub fetcher (`src/githubFetcher.js`) -/

namespace Fetcher

/-- One entry of the git tree returned by the GitHub API. -/
structure TreeItem where
  type : String
  path : String
  size : Nat
deriving DecidableEq

/-- `CONFIG.SKIP_DIRS`. -/
def SKIP_DIRS : List String :=
  ["node_modules", ".git", "dist", "build", "vendor", "__pycache__",
   ".env", ".venv", "venv", "env", ".idea", ".vscode", "coverage",
   ".nyc_output", "bower_components", ".next", ".nuxt", "target",
   "packages", ".cache", ".temp", "tmp", ".tmp"]

/-- `CONFIG.ALLOWED_EXTENSIONS`. -/
def ALLOWED_EXTENSIONS : List String :=
  [".py", ".js", ".ts", ".jsx", ".tsx", ".cpp", ".c", ".h", ".hpp",
   ".cc", ".cxx", ".hxx", ".pyw"]

/-- `CONFIG.CONFIG_FILES`. -/
def CONFIG_FILES : List String :=
  ["package.json", "requirements.txt", "pyproject.toml", "setup.py",
   "cmakelists.txt", "makefile", "dockerfile", "docker-compose.yml",
   "docker-compose.yaml", ".eslintrc", ".eslintrc.json", ".eslintrc.js",
   ".prettierrc", ".prettierrc.json", "tsconfig.json", "jest.config.js",
   ".travis.yml", ".gitlab-ci.yml", "readme.md", "readme.txt", "readme",
   "license", "license.md", "license.txt", "copying"]

/-- `CONFIG.SKIP_EXTENSIONS`. -/
def SKIP_EXTENSIONS : List String :=
  [".png", ".jpg", ".jpeg", ".gif", ".ico", ".svg", ".webp", ".bmp",
   ".mp4", ".mp3", ".wav", ".avi", ".mov", ".webm", ".ogg",
   ".pdf", ".doc", ".docx", ".xls", ".xlsx", ".ppt", ".pptx",
   ".zip", ".tar", ".gz", ".rar", ".7z", ".exe", ".dll", ".so",
   ".dylib", ".bin", ".dat", ".db", ".sqlite", ".woff", ".woff2",
   ".ttf", ".eot", ".otf", ".map", ".min.js", ".min.css",
   ".lock", ".log"]

/-- `CONFIG.MAX_FILE_SIZE` (1 MiB). -/
def MAX_FILE_SIZE : Nat := 1024 * 1024

/-- `CONFIG.MAX_FILES`. -/
def MAX_FILES : Nat := 500

/-- Node `path.basename`: the part after the last slash. -/
def basename (p : String) : String :=
  (p.splitOn ("/")).getLastD p

/-- Node `path.dirname`: everything before the last slash, else a dot. -/
def dirname (p : String) : String :=
  let parts := p.splitOn ("/")
  if parts.length ≤ 1 then "." else String.intercalate ("/") parts.dropLast

/-- Node `path.extname`: the suffix of the basename from its last dot, or
the empty string when there is no dot past position zero. -/
def extname (p : String) : String :=
  match (basename p).splitOn (".") with
  | [] => ""
  | [_] => ""
  | head :: rest =>
      if head == "" && rest.length == 1 then "" else "." ++ rest.getLastD ""

/-- One iteration of the `for (const item of tree)` loop of
`filterFiles` (`src/githubFetcher.js` lines 233-276), with its chain of
`continue` guards. -/
def filterStep (acc : List TreeItem) (item : TreeItem) : List TreeItem :=
  if item.type == "blob" then
    let fileName := (basename item.path).toLower
    let ext := (extname item.path).toLower
    let dirParts := (dirname item.path).splitOn ("/")
    if item.size > MAX_FILE_SIZE then acc
    else if dirParts.any (fun d => SKIP_DIRS.contains d.toLower) then acc
    else if SKIP_EXTENSIONS.contains ext then acc
    else if CONFIG_FILES.contains fileName then acc ++ [item]
    else if ALLOWED_EXTENSIONS.contains ext then acc ++ [item]
    else if [".yml", ".yaml", ".json", ".md", ".sh", ".bash"].contains ext then acc ++ [item]
    else acc
  else acc

/-- Insert a tree item into a list already sorted by ascending size,
after every item of smaller or equal size. -/
def sizeInsert (a : TreeItem) : List TreeItem → List TreeItem
  | [] => [a]
  | b :: l => if a.size < b.size then a :: b :: l else b :: sizeInsert a l

/-- The stable ascending sort `Array.prototype.sort` performs with the
size comparator (`(a, b) => (a.size || 0) - (b.size || 0)`), stated as an
insertion sort, which computes the same list for this total comparator. -/
def sortBySizeAsc (l : List TreeItem) : List TreeItem :=
  l.foldl (fun acc a => sizeInsert a acc) []

/-- `filterFiles` from `src/githubFetcher.js` lines 233-287. -/
def filterFiles (tree : List TreeItem) : List TreeItem :=
  let files := tree.foldl filterStep []
  let files := sortBySizeAsc files
  if files.length > MAX_FILES then files.take MAX_FILES else files

/-- The zero-analyzable-files check of `fetchRepository`
(`src/githubFetcher.js` lines 378-383): an empty filtered list raises the
pipeline-fatal error, otherwise the files proceed to download. -/
def fetchRepositoryFiles (tree : List TreeItem) : Except String (List TreeItem) :=
  let filesToDownload := filterFiles tree
  if filesToDownload.length = 0 then .error "No analyzable files found in repository"
  else .ok filesToDownload

/-- Modelled from the spec: the v1.1 ingestion module is absent from the
repository snapshot (its caller `server.js` v1.1 and its callee
`src/githubFetcher.js` are present).  Per spec sections 2 and 7(c) it
materialises the repository through the fetcher first and runs the
analysis stages only on success, so an acquisition failure propagates to
the caller in place of any report. -/
def analyzeRepoPipeline (tree : List TreeItem) (analyze : List TreeItem → Report) :
    Except String Report :=
  (fetchRepositoryFiles tree).map analyze

end Fetcher

/-! ## Concrete sample inputs used by witnesses -/

/-- The spec's worked example: Python at 70 percent, JavaScript at 30. -/
def pyJsBreakdown : List (String × LangStat) :=
  [("Python", ⟨2, 700, 7000, 70⟩), ("JavaScript", ⟨1, 300, 3000, 30⟩)]

/-- Analyzer outcomes scoring Python 80 and JavaScript 60. -/
def pyJsRun : Router.AnalyzerKind → Except String Router.AnalysisView
  | .python => .ok ⟨80, 4, 0⟩
  | .javascript => .ok ⟨60, 4, 0⟩
  | .cpp => .ok ⟨0, 0, 0⟩

/-- Analyzer outcomes where the Python analyzer throws. -/
def pyFailRun : Router.AnalyzerKind → Except String Router.AnalysisView
  | .python => .error "spawn radon ENOENT"
  | .javascript => .ok ⟨60, 4, 0⟩
  | .cpp => .ok ⟨0, 0, 0⟩

/-- A breakdown containing only an unsupported language. -/
def rubyBreakdown : List (String × LangStat) :=
  [("Ruby", ⟨3, 500, 5000, 100⟩)]

/-- An arbitrary analyzer outcome (never reached in the claims using it). -/
def anyRun : Router.AnalyzerKind → Except String Router.AnalysisView :=
  fun _ => .ok ⟨0, 0, 0⟩

/-- Project metrics with score 90 (the spec's worked example). -/
def pm90 : ProjectMetrics :=
  ⟨true, 80, true, true, true, false, true, false, 80, 90⟩

/-- A code-analysis result with overall score 74. -/
def ca74 : Router.CodeAnalysis :=
  ⟨[], 74, [], none⟩

/-- The empty language statistics. -/
def emptyLanguageStats : LanguageStats := ⟨none, [], 0, 0⟩

/-- An analysis continuation for the acquisition pipeline; its value is
irrelevant because the claims using it fail before analysis. -/
def trivialAnalyze : List Fetcher.TreeItem → Report :=
  fun _ => compileReport ("u") emptyLanguageStats pm90 ca74

/-! ## Claim theorems -/

/-- C1: for every projectMetrics score and codeAnalysis overall score,
the report's overallScore is `round(projectScore * 0.4 + codeScore * 0.6)`;
in particular projectScore 90 and codeScore 74 give 80. -/
theorem claim_C1_overall_score :
    (∀ (url : String) (ls : LanguageStats) (pm : ProjectMetrics) (ca : Router.CodeAnalysis),
        (compileReport url ls pm ca).overallScore =
          jsRound ((pm.score : ℚ) * 0.4 + (ca.overallScore : ℚ) * 0.6)) ∧
    (compileReport ("u") emptyLanguageStats pm90 ca74).overallScore = 80 := by
  constructor
  · intro url ls pm ca
    rfl
  · show jsRound ((90 : ℚ) * 0.4 + (74 : ℚ) * 0.6) = 80
    norm_num [jsRound]

set_option maxHeartbeats 3200000 in
/-- The grade rank of a score written as a sum of clamped linear terms,
one per threshold of the table; a stepping stone for monotonicity. -/
theorem rank_closed (s : ℤ) :
    (gradeRank (scoreToGrade s) : ℤ) =
      max 0 (min 1 (s - 89)) + max 0 (min 1 (s - 84)) + max 0 (min 1 (s - 79))
      + max 0 (min 1 (s - 74)) + max 0 (min 1 (s - 69)) + max 0 (min 1 (s - 64))
      + max 0 (min 1 (s - 59)) + max 0 (min 1 (s - 54)) + max 0 (min 1 (s - 49))
      + max 0 (min 1 (s - 39)) := by
  unfold scoreToGrade
  by_cases h90 : s ≥ 90
  · rw [if_pos h90]; simp only [gradeRank]; omega
  rw [if_neg h90]
  by_cases h85 : s ≥ 85
  · rw [if_pos h85]; simp only [gradeRank]; omega
  rw [if_neg h85]
  by_cases h80 : s ≥ 80
  · rw [if_pos h80]; simp only [gradeRank]; omega
  rw [if_neg h80]
  by_cases h75 : s ≥ 75
  · rw [if_pos h75]; simp only [gradeRank]; omega
  rw [if_neg h75]
  by_cases h70 : s ≥ 70
  · rw [if_pos h70]; simp only [gradeRank]; omega
  rw [if_neg h70]
  by_cases h65 : s ≥ 65
  · rw [if_pos h65]; simp only [gradeRank]; omega
  rw [if_neg h65]
  by_cases h60 : s ≥ 60
  · rw [if_pos h60]; simp only [gradeRank]; omega
  rw [if_neg h60]
  by_cases h55 : s ≥ 55
  · rw [if_pos h55]; simp only [gradeRank]; omega
  rw [if_neg h55]
  by_cases h50 : s ≥ 50
  · rw [if_pos h50]; simp only [gradeRank]; omega
  rw [if_neg h50]
  by_cases h40 : s ≥ 40
  · rw [if_pos h40]; simp only [gradeRank]; omega
  rw [if_neg h40]
  simp only [gradeRank]; omega

/-- C2: the grade of a score is a pure, monotonic, deterministic function
given by the fixed threshold table with inclusive lower bounds, attaining
exactly the eleven grades; Grade(90)=A+, Grade(85)=A, Grade(79)=B+,
Grade(39)=F. -/
theorem claim_C2_grade_table :
    (∀ s t : ℤ, s ≤ t → gradeRank (scoreToGrade s) ≤ gradeRank (scoreToGrade t)) ∧
    (∀ g : Grade, ∃ s : ℤ, scoreToGrade s = g) ∧
    scoreToGrade 90 = .A_plus ∧ scoreToGrade 85 = .A ∧
    scoreToGrade 79 = .B_plus ∧ scoreToGrade 39 = .F := by
  refine ⟨?_, ?_, by decide, by decide, by decide, by decide⟩
  · intro s t hst
    have key : (gradeRank (scoreToGrade s) : ℤ) ≤ (gradeRank (scoreToGrade t) : ℤ) := by
      rw [rank_closed s, rank_closed t]
      gcongr
    exact_mod_cast key
  · intro g
    cases g with
    | A_plus => exact ⟨95, by decide⟩
    | A => exact ⟨87, by decide⟩
    | A_minus => exact ⟨82, by decide⟩
    | B_plus => exact ⟨77, by decide⟩
    | B => exact ⟨72, by decide⟩
    | B_minus => exact ⟨67, by decide⟩
    | C_plus => exact ⟨62, by decide⟩
    | C => exact ⟨57, by decide⟩
    | C_minus => exact ⟨52, by decide⟩
    | D => exact ⟨45, by decide⟩
    | F => exact ⟨20, by decide⟩

/-- Witness for C2 at a concrete pair of scores. -/
theorem claim_C2_grade_table_witness :
    gradeRank (scoreToGrade 62) ≤ gradeRank (scoreToGrade 88) :=
  claim_C2_grade_table.1 62 88 (by decide)

/-- C6: each language family's bucket categorization places complexity 5
in low, 6 in medium, 20 in high and 21 in veryHigh. -/
theorem claim_C6_complexity_buckets :
    ∀ (agg : ComplexityAgg) (d : Distribution),
      (CppAnalyzer.categorizeComplexity 5 agg =
        { distribution := { agg.distribution with low := agg.distribution.low + 1 },
          max := max agg.max 5 } ∧
       CppAnalyzer.categorizeComplexity 6 agg =
        { distribution := { agg.distribution with medium := agg.distribution.medium + 1 },
          max := max agg.max 6 } ∧
       CppAnalyzer.categorizeComplexity 20 agg =
        { distribution := { agg.distribution with high := agg.distribution.high + 1 },
          max := max agg.max 20 } ∧
       CppAnalyzer.categorizeComplexity 21 agg =
        { distribution := { agg.distribution with veryHigh := agg.distribution.veryHigh + 1 },
          max := max agg.max 21 }) ∧
      (JsAnalyzer.categorizeComplexity 5 agg =
        { distribution := { agg.distribution with low := agg.distribution.low + 1 },
          max := max agg.max 5 } ∧
       JsAnalyzer.categorizeComplexity 6 agg =
        { distribution := { agg.distribution with medium := agg.distribution.medium + 1 },
          max := max agg.max 6 } ∧
       JsAnalyzer.categorizeComplexity 20 agg =
        { distribution := { agg.distribution with high := agg.distribution.high + 1 },
          max := max agg.max 20 } ∧
       JsAnalyzer.categorizeComplexity 21 agg =
        { distribution := { agg.distribution with veryHigh := agg.distribution.veryHigh + 1 },
          max := max agg.max 21 }) ∧
      (PyAnalyzer.categorizeComplexity 5 d = { d with low := d.low + 1 } ∧
       PyAnalyzer.categorizeComplexity 6 d = { d with medium := d.medium + 1 } ∧
       PyAnalyzer.categorizeComplexity 20 d = { d with high := d.high + 1 } ∧
       PyAnalyzer.categorizeComplexity 21 d = { d with veryHigh := d.veryHigh + 1 }) := by
  intro agg d
  exact ⟨⟨rfl, rfl, rfl, rfl⟩, ⟨rfl, rfl, rfl, rfl⟩, ⟨rfl, rfl, rfl, rfl⟩⟩

/-- C9 (code bug): a rejected pylint subprocess with no captured stdout is
funnelled by the catch handler into the same branch as a clean run with
zero issues, so the tool-unavailable fallback score is 85, not the
claimed 70; only unparsable output reaches the 70 default. -/
theorem claim_C9_pylint_fallback :
    PyAnalyzer.analyzeStyleScore (.rejected .empty) = 85 ∧
    PyAnalyzer.analyzeStyleScore (.resolved .empty) = 85 ∧
    PyAnalyzer.analyzeStyleScore (.rejected .unparsable) = 70 ∧
    PyAnalyzer.analyzeStyleScore (.resolved .unparsable) = 70 := by
  exact ⟨rfl, rfl, rfl, rfl⟩

/-- C7: the C/C++ analyzer's reported average complexity is computed from
the bucket counts with the fixed representative weights 3/7/15/25, not as
a true mean: two functions of exact complexity 5 average to 3, not 5. -/
theorem claim_C7_cpp_bucket_average :
    (∀ (d : Distribution) (functions : Nat), 0 < functions →
        CppAnalyzer.finalizeAverage d functions =
          jsRound ((3 * (d.low : ℚ) + 7 * (d.medium : ℚ) + 15 * (d.high : ℚ)
            + 25 * (d.veryHigh : ℚ)) / (functions : ℚ))) ∧
    CppAnalyzer.finalizeAverage (CppAnalyzer.recordFunctionComplexities [5, 5]).distribution 2 = 3 ∧
    trueMeanComplexity [5, 5] = 5 ∧
    CppAnalyzer.finalizeAverage (CppAnalyzer.recordFunctionComplexities [5, 5]).distribution 2
      ≠ jsRound (trueMeanComplexity [5, 5]) := by
  have hdist : (CppAnalyzer.recordFunctionComplexities [5, 5]).distribution = ⟨2, 0, 0, 0⟩ := rfl
  have h2 : CppAnalyzer.finalizeAverage (⟨2, 0, 0, 0⟩ : Distribution) 2 = 3 := by
    norm_num [CppAnalyzer.finalizeAverage, jsRound]
  have h3 : trueMeanComplexity [5, 5] = 5 := by
    norm_num [trueMeanComplexity]
  refine ⟨?_, by rw [hdist]; exact h2, h3, ?_⟩
  · intro d functions hf
    unfold CppAnalyzer.finalizeAverage
    rw [if_pos hf]
    congr 1
    push_cast
    ring
  · rw [hdist, h2, h3]
    norm_num [jsRound]

/-- Witness for C7 at the bucket counts of two complexity-5 functions. -/
theorem claim_C7_cpp_bucket_average_witness :
    CppAnalyzer.finalizeAverage ⟨2, 0, 0, 0⟩ 2 =
      jsRound ((3 * (((⟨2, 0, 0, 0⟩ : Distribution).low : ℕ) : ℚ)
        + 7 * (((⟨2, 0, 0, 0⟩ : Distribution).medium : ℕ) : ℚ)
        + 15 * (((⟨2, 0, 0, 0⟩ : Distribution).high : ℕ) : ℚ)
        + 25 * (((⟨2, 0, 0, 0⟩ : Distribution).veryHigh : ℕ) : ℚ)) / ((2 : ℕ) : ℚ)) :=
  claim_C7_cpp_bucket_average.1 ⟨2, 0, 0, 0⟩ 2 (by decide)

/-- C5: when no language is both supported and at or above the 5 percent
threshold, `runAnalyzers` returns the fixed neutral result: overall score
50, empty byLanguage, and the no-supported-languages message. -/
theorem claim_C5_unsupported_only_default
    (breakdown : List (String × LangStat))
    (run : Router.AnalyzerKind → Except String Router.AnalysisView)
    (h : ∀ e ∈ breakdown,
      ¬(Router.SUPPORTED_LANGUAGES.contains e.1 = true ∧ e.2.percentage ≥ 5)) :
    Router.runAnalyzers breakdown run =
      { byLanguage := [], overallScore := 50, analyzedLanguages := [],
        message := some "No supported languages found with significant code" } := by
  have hfilter : breakdown.filter Router.qualifies = [] := by
    rw [List.filter_eq_nil_iff]
    intro e he
    have h2 := h e he
    simp only [Router.qualifies, Bool.and_eq_true, decide_eq_true_eq]
    exact fun hc => h2 ⟨hc.1, hc.2⟩
  simp [Router.runAnalyzers, hfilter]

/-- Witness for C5: a repository containing only Ruby. -/
theorem claim_C5_unsupported_only_default_witness :
    Router.runAnalyzers rubyBreakdown anyRun =
      { byLanguage := [], overallScore := 50, analyzedLanguages := [],
        message := some "No supported languages found with significant code" } :=
  claim_C5_unsupported_only_default rubyBreakdown anyRun (by decide)

/-! ## Router lemmas and claims C3, C10 -/

namespace Router

theorem routerStep_foldl (run : AnalyzerKind → Except String AnalysisView) :
    ∀ (l : List (String × LangStat)) (acc : RouterAcc),
      l.foldl (routerStep run) acc =
        { byLanguage := acc.byLanguage ++ routerEntries run l
          analyzedLanguages := acc.analyzedLanguages ++ (routerSuccesses run l).map Prod.fst
          totalWeight := acc.totalWeight + sumPct (routerSuccesses run l)
          weightedScore := acc.weightedScore + sumWeighted run (routerSuccesses run l) } := by
  intro l
  induction l with
  | nil =>
    intro acc
    cases acc
    simp [routerEntries, routerSuccesses, sumPct, sumWeighted]
  | cons e rest ih =>
    intro acc
    rw [List.foldl_cons, ih]
    rcases hk : ANALYZERS e.1 with _ | k
    · simp [routerStep, routerEntries, routerSuccesses, langSucceeds, hk, List.filter_cons]
    · rcases hr : run k with msg | a
      · simp [routerStep, routerEntries, routerSuccesses, langSucceeds, routerEntry,
              sumPct, sumWeighted, hk, hr, List.filter_cons]
      · simp [routerStep, routerEntries, routerSuccesses, langSucceeds, routerEntry, runScore,
              sumPct, sumWeighted, hk, hr, List.filter_cons, add_assoc]

theorem runAnalyzers_characterization (breakdown : List (String × LangStat))
    (run : AnalyzerKind → Except String AnalysisView)
    (hne : routerSelected breakdown ≠ []) :
    runAnalyzers breakdown run =
      { byLanguage := routerEntries run (routerSelected breakdown)
        overallScore :=
          if sumPct (routerSuccesses run (routerSelected breakdown)) > 0
          then jsRound (sumWeighted run (routerSuccesses run (routerSelected breakdown)) /
                        sumPct (routerSuccesses run (routerSelected breakdown)))
          else 50
        analyzedLanguages := (routerSuccesses run (routerSelected breakdown)).map Prod.fst
        message := none } := by
  have hempty : (routerSelected breakdown).isEmpty = false := by
    cases h : routerSelected breakdown with
    | nil => exact absurd h hne
    | cons a l => rfl
  unfold runAnalyzers
  simp only [show (breakdown.filter qualifies).take 3 = routerSelected breakdown from rfl,
             hempty, Bool.false_eq_true, if_false, routerStep_foldl]
  simp

end Router

namespace Router

theorem selected_qualifies {breakdown : List (String × LangStat)} {e : String × LangStat}
    (he : e ∈ routerSelected breakdown) : qualifies e = true := by
  have hf : e ∈ breakdown.filter qualifies := List.take_subset _ _ he
  exact List.of_mem_filter hf

theorem sumPct_pos {l : List (String × LangStat)} (hne : l ≠ [])
    (h5 : ∀ e ∈ l, (5 : ℤ) ≤ e.2.percentage) : 0 < sumPct l := by
  unfold sumPct
  apply List.sum_pos
  · intro q hq
    obtain ⟨e, he, rfl⟩ := List.mem_map.mp hq
    have h := h5 e he
    have hq5 : (5 : ℚ) ≤ (e.2.percentage : ℚ) := by exact_mod_cast h
    linarith
  · simpa using hne

theorem lookup_routerEntries (run : AnalyzerKind → Except String AnalysisView) :
    ∀ (l : List (String × LangStat)) (lang : String) (stat : LangStat) (k : AnalyzerKind),
      ((l.map Prod.fst).Nodup) → ((lang, stat) ∈ l) → (ANALYZERS lang = some k) →
      (routerEntries run l).lookup lang = some (routerEntry run k) := by
  intro l
  induction l with
  | nil => intro lang stat k _ hmem _; cases hmem
  | cons e rest ih =>
    intro lang stat k hnd hmem hk
    rcases List.mem_cons.mp hmem with heq | htail
    · subst heq
      simp [routerEntries, hk, List.lookup]
    · have hne : e.1 ≠ lang := by
        intro h
        apply (List.nodup_cons.mp ((List.map_cons Prod.fst e rest) ▸ hnd)).1
        rw [h]
        exact List.mem_map_of_mem Prod.fst htail
      have hnd2 : (rest.map Prod.fst).Nodup :=
        (List.nodup_cons.mp ((List.map_cons Prod.fst e rest) ▸ hnd)).2
      have hb : (lang == e.1) = false := by simp [Ne.symm hne]
      rcases hke : ANALYZERS e.1 with _ | k2
      · simpa [routerEntries, hke] using ih lang stat k hnd2 htail hk
      · simpa [routerEntries, hke, List.lookup, hb] using ih lang stat k hnd2 htail hk

theorem notMem_successes (run : AnalyzerKind → Except String AnalysisView)
    (l : List (String × LangStat)) (lang : String)
    (hfalse : langSucceeds run lang = false) :
    lang ∉ (routerSuccesses run l).map Prod.fst := by
  intro hmem
  obtain ⟨e, he, heq⟩ := List.mem_map.mp hmem
  have hf := List.of_mem_filter he
  rw [heq, hfalse] at hf
  cases hf

end Router

open Router in
/-- C10: a selected language whose analyzer throws is recorded as the
degraded entry, omitted from analyzedLanguages, and contributes neither
weight nor score to the overall score; if every selected analyzer fails
the zero-total-weight branch yields 50. -/
theorem claim_C10_failed_analyzer_isolated
    (breakdown : List (String × LangStat))
    (run : AnalyzerKind → Except String AnalysisView)
    (lang : String) (stat : LangStat) (k : AnalyzerKind) (msg : String)
    (hnd : (breakdown.map Prod.fst).Nodup)
    (hmem : (lang, stat) ∈ routerSelected breakdown)
    (hk : ANALYZERS lang = some k)
    (hfail : run k = .error msg) :
    (runAnalyzers breakdown run).byLanguage.lookup lang = some (.failed 50 msg) ∧
    lang ∉ (runAnalyzers breakdown run).analyzedLanguages ∧
    (runAnalyzers breakdown run).overallScore =
      (if sumPct (routerSuccesses run (routerSelected breakdown)) > 0
       then jsRound (sumWeighted run (routerSuccesses run (routerSelected breakdown)) /
                     sumPct (routerSuccesses run (routerSelected breakdown)))
       else 50) ∧
    (routerSuccesses run (routerSelected breakdown) = [] →
      (runAnalyzers breakdown run).overallScore = 50) := by
  have hne : routerSelected breakdown ≠ [] := by
    intro h
    rw [h] at hmem
    cases hmem
  have hchar := runAnalyzers_characterization breakdown run hne
  have hnds : ((routerSelected breakdown).map Prod.fst).Nodup := by
    have h1 : List.Sublist (routerSelected breakdown) breakdown :=
      (List.take_sublist _ _).trans (List.filter_sublist _)
    exact hnd.sublist (h1.map Prod.fst)
  have hfalse : langSucceeds run lang = false := by
    simp [langSucceeds, hk, hfail]
  rw [hchar]
  refine ⟨?_, ?_, rfl, ?_⟩
  · have hl := lookup_routerEntries run (routerSelected breakdown) lang stat k hnds hmem hk
    simpa [routerEntry, hfail] using hl
  · exact notMem_successes run (routerSelected breakdown) lang hfalse
  · intro h
    rw [h]
    simp [sumPct]

open Router in
/-- C3: the code-analysis overall score is the percentage-weighted mean of
the analyzed languages' scores, rounded; Python 70 percent at 80 with
JavaScript 30 percent at 60 gives 74. -/
theorem claim_C3_weighted_mean
    (breakdown : List (String × LangStat))
    (run : AnalyzerKind → Except String AnalysisView)
    (hne : routerSelected breakdown ≠ [])
    (hall : ∀ e ∈ routerSelected breakdown, langSucceeds run e.1 = true) :
    (runAnalyzers breakdown run).overallScore =
      jsRound (sumWeighted run (routerSelected breakdown) / sumPct (routerSelected breakdown)) ∧
    (runAnalyzers pyJsBreakdown pyJsRun).overallScore = 74 := by
  constructor
  · have hsucc : routerSuccesses run (routerSelected breakdown) = routerSelected breakdown := by
      unfold routerSuccesses
      exact List.filter_eq_self.mpr hall
    have hpos : 0 < sumPct (routerSelected breakdown) := by
      refine sumPct_pos hne (fun e he => ?_)
      have hq := selected_qualifies he
      simp only [qualifies, Bool.and_eq_true, decide_eq_true_eq] at hq
      exact hq.2
    rw [runAnalyzers_characterization breakdown run hne]
    simp only [hsucc]
    rw [if_pos hpos]
  · have hne2 : routerSelected pyJsBreakdown ≠ [] := by decide
    have hsel : routerSelected pyJsBreakdown = pyJsBreakdown := by decide
    have hsucc2 : routerSuccesses pyJsRun (routerSelected pyJsBreakdown) = pyJsBreakdown := by
      rw [hsel]
      decide
    have a1 : ANALYZERS ("Python") = some .python := rfl
    have a2 : ANALYZERS ("JavaScript") = some .javascript := rfl
    have e1 : pyJsRun .python = .ok ⟨80, 4, 0⟩ := rfl
    have e2 : pyJsRun .javascript = .ok ⟨60, 4, 0⟩ := rfl
    rw [runAnalyzers_characterization pyJsBreakdown pyJsRun hne2]
    simp only [hsucc2]
    norm_num [sumPct, sumWeighted, runScore, pyJsBreakdown, a1, a2, e1, e2, jsRound]

open Router in
/-- Witness for C3 at the worked Python/JavaScript example. -/
theorem claim_C3_weighted_mean_witness :
    (runAnalyzers pyJsBreakdown pyJsRun).overallScore =
      jsRound (sumWeighted pyJsRun (routerSelected pyJsBreakdown) /
               sumPct (routerSelected pyJsBreakdown)) :=
  (claim_C3_weighted_mean pyJsBreakdown pyJsRun (by decide) (by decide)).1

open Router in
/-- Witness for C10: the Python analyzer throws while JavaScript succeeds. -/
theorem claim_C10_failed_analyzer_isolated_witness :
    (runAnalyzers pyJsBreakdown pyFailRun).byLanguage.lookup ("Python") =
        some (.failed 50 "spawn radon ENOENT") ∧
    "Python" ∉ (runAnalyzers pyJsBreakdown pyFailRun).analyzedLanguages ∧
    (runAnalyzers pyJsBreakdown pyFailRun).overallScore =
      (if sumPct (routerSuccesses pyFailRun (routerSelected pyJsBreakdown)) > 0
       then jsRound (sumWeighted pyFailRun (routerSuccesses pyFailRun (routerSelected pyJsBreakdown)) /
                     sumPct (routerSuccesses pyFailRun (routerSelected pyJsBreakdown)))
       else 50) ∧
    (routerSuccesses pyFailRun (routerSelected pyJsBreakdown) = [] →
      (runAnalyzers pyJsBreakdown pyFailRun).overallScore = 50) :=
  claim_C10_failed_analyzer_isolated pyJsBreakdown pyFailRun ("Python") ⟨2, 700, 7000, 70⟩
    .python "spawn radon ENOENT" (by decide) (by decide) rfl rfl

/-! ## Detector lemmas and claim C8 -/

namespace Detector

theorem primary_foldl_char :
    ∀ (l : List (String × RawStat)) (p : Option String) (m : Nat),
      l.foldl primaryStep (p, m) =
        (if maxLinesOf l ≤ m then p
         else (l.find? (fun e => decide (maxLinesOf l ≤ e.2.lines))).map Prod.fst,
         max m (maxLinesOf l)) := by
  intro l
  induction l with
  | nil =>
    intro p m
    simp [maxLinesOf]
  | cons e rest ih =>
    intro p m
    rw [List.foldl_cons]
    by_cases hm : e.2.lines > m
    · rw [show primaryStep (p, m) e = (some e.1, e.2.lines) from by simp [primaryStep, hm]]
      rw [ih]
      by_cases hr : maxLinesOf rest ≤ e.2.lines
      · have hmax : maxLinesOf (e :: rest) = e.2.lines := by
          simp [maxLinesOf]; omega
        rw [hmax]
        have hcond : ¬(e.2.lines ≤ m) := by omega
        rw [if_pos hr, if_neg hcond]
        have hfind : (e :: rest).find? (fun x => decide (e.2.lines ≤ x.2.lines)) = some e := by
          rw [List.find?_cons_of_pos]
          simp
        rw [hfind]
        simp
        omega
      · have hmax : maxLinesOf (e :: rest) = maxLinesOf rest := by
          simp [maxLinesOf]; omega
        rw [hmax]
        have hcond : ¬(maxLinesOf rest ≤ m) := by omega
        rw [if_neg hr, if_neg hcond]
        have hfind : (e :: rest).find? (fun x => decide (maxLinesOf rest ≤ x.2.lines)) =
            rest.find? (fun x => decide (maxLinesOf rest ≤ x.2.lines)) := by
          rw [List.find?_cons_of_neg]
          simp
          omega
        rw [hfind]
        simp
        omega
    · rw [show primaryStep (p, m) e = (p, m) from by simp [primaryStep, hm]]
      rw [ih]
      by_cases hr : maxLinesOf rest ≤ m
      · have hcond : maxLinesOf (e :: rest) ≤ m := by
          simp [maxLinesOf]; omega
        rw [if_pos hr, if_pos hcond]
        simp [maxLinesOf]
        omega
      · have hmax : maxLinesOf (e :: rest) = maxLinesOf rest := by
          simp [maxLinesOf]; omega
        rw [hmax]
        rw [if_neg hr, if_neg hr]
        have hfind : (e :: rest).find? (fun x => decide (maxLinesOf rest ≤ x.2.lines)) =
            rest.find? (fun x => decide (maxLinesOf rest ≤ x.2.lines)) := by
          rw [List.find?_cons_of_neg]
          simp
          omega
        rw [hfind]

end Detector

open Detector in
/-- C8 (amended): provided the shared maximum line count is positive (true
whenever at least one counted file was readable), the primary language is
the first-encountered language attaining the maximum; the strict-greater
comparison never lets a later equal count displace it.  With every count
zero the primary stays null (see the counterexample). -/
theorem claim_C8_primary_tie_break (events : List (String × FileRead))
    (h : 0 < maxLinesOf (accumulateStats events)) :
    (detectLanguages events).primary =
      ((accumulateStats events).find?
        (fun e => decide (maxLinesOf (accumulateStats events) ≤ e.2.lines))).map Prod.fst := by
  show ((accumulateStats events).foldl primaryStep (none, 0)).1 = _
  rw [primary_foldl_char]
  rw [if_neg (by omega)]

open Detector in
/-- Witness for C8: two languages tied at 10 lines, first one wins. -/
theorem claim_C8_witness :
    (detectLanguages [(".py", .ok 10 100), (".js", .ok 10 80)]).primary =
      ((accumulateStats [(".py", .ok 10 100), (".js", .ok 10 80)]).find?
        (fun e => decide (maxLinesOf (accumulateStats [(".py", .ok 10 100), (".js", .ok 10 80)]) ≤ e.2.lines))).map
        Prod.fst :=
  claim_C8_primary_tie_break [(".py", .ok 10 100), (".js", .ok 10 80)] (by decide)

open Detector in
/-- Counterexample to C8 as stated: a walk of two unreadable files gives
two languages sharing the maximum line count 0, yet the primary language
is null rather than the first-encountered Ruby. -/
theorem claim_C8_counterexample :
    (detectLanguages [(".rb", .failed), (".php", .failed)]).primary = none ∧
    (accumulateStats [(".rb", .failed), (".php", .failed)]).map
        (fun e => (e.1, e.2.lines)) = [("Ruby", 0), ("PHP", 0)] := by
  exact ⟨by decide, by decide⟩


/-! ## Fetcher lemmas and claim C4 -/

theorem filterStep_foldl_no_blob :
    ∀ (tree : List Fetcher.TreeItem) (acc : List Fetcher.TreeItem),
      (∀ item ∈ tree, item.type ≠ "blob") → tree.foldl Fetcher.filterStep acc = acc := by
  intro tree
  induction tree with
  | nil => intro acc _; rfl
  | cons e rest ih =>
    intro acc h
    rw [List.foldl_cons]
    have he : e.type ≠ "blob" := h e (List.mem_cons_self e rest)
    have hstep : Fetcher.filterStep acc e = acc := by
      unfold Fetcher.filterStep
      rw [if_neg (by simp [he])]
    rw [hstep]
    exact ih acc (fun i hi => h i (List.mem_cons_of_mem e hi))

open Fetcher in
/-- C4: a repository whose git tree contains no file entry at all makes
the acquisition step raise the pipeline-fatal error, so the caller gets
the error instead of any report. -/
theorem claim_C4_zero_files_fatal (tree : List TreeItem)
    (analyze : List TreeItem → Report)
    (h : ∀ item ∈ tree, item.type ≠ "blob") :
    analyzeRepoPipeline tree analyze =
      .error "No analyzable files found in repository" := by
  have hfold := filterStep_foldl_no_blob tree [] h
  have hff : filterFiles tree = [] := by
    unfold filterFiles
    simp [hfold, sortBySizeAsc, MAX_FILES]
  unfold analyzeRepoPipeline fetchRepositoryFiles
  simp [hff, Except.map]

open Fetcher in
/-- Witness for C4 at the empty tree. -/
theorem claim_C4_zero_files_fatal_witness :
    analyzeRepoPipeline [] trivialAnalyze =
      .error "No analyzable files found in repository" :=
  claim_C4_zero_files_fatal [] trivialAnalyze (by decide)
